/-
Verification of the conversation-state and escalation engine of the
`cs_agent` customer-support assistant.

The Python modules `cs_agent/session/state_helpers.py`,
`cs_agent/tools/kb_tools.py`, `cs_agent/tools/ticket_system.py` and
`cs_agent/tools/user_context.py` are shallowly embedded below:

* session state (a Python dict with the keys of `state_schema.INITIAL_STATE`)
  becomes the record `SessionState`; every state-mutating helper becomes a
  function `SessionState → ... → SessionState`, with the wall-clock value that
  the Python code obtains from `datetime.now().isoformat()` passed in
  explicitly as a `now : String` argument;
* Python strings become `String`; `s.lower()` is modelled by mapping
  `Char.toLower` over the characters (the corpus and all inputs considered
  are ASCII, where the two coincide); `needle in hay` is modelled by
  `strContains hay needle` (contiguous-sublist containment on the character
  lists); `s.split()` is modelled by `pySplit` (split on whitespace runs,
  no empty words), and a Python `set` of words by `List.dedup`;
* Python truthiness of optional strings / lists is made explicit
  (`optStrTruthy`, and pattern matches on `[]`);
* `random.randint` draws are modelled by a stream of pre-drawn numbers
  (`rng : List Nat`); the id-generation retry loop consumes the stream and
  returns `none` if it is exhausted;
* the caps-ratio test `caps / max(len, 1) > 0.5` of `detect_frustration`
  (exact real division) is modelled by the equivalent integer comparison
  `2 * caps > max len 1`;
* Python's stable `list.sort(key=..., reverse=True)` is modelled by the
  stable descending insertion sort `sortDescBy` (stability is proved below,
  so the two agree on every input).
-/
import Mathlib

set_option maxRecDepth 100000

namespace CsAgent

/-! ### String utilities mirroring the Python primitives used by the code -/

/-- Characters of a string. -/
def chars (s : String) : List Char := s.data

/-- `s.lower()` on ASCII data: lower-case every character. -/
def lowerStr (s : String) : String := String.mk (s.data.map Char.toLower)

/-- `lp.isPrefixOf l`: Boolean prefix test on character lists. -/
def listIsPrefixOf : List Char → List Char → Bool
  | [], _ => true
  | _ :: _, [] => false
  | a :: as, b :: bs => a == b && listIsPrefixOf as bs

/-- Boolean contiguous-sublist test on character lists. -/
def listIsSubOf (needle : List Char) : List Char → Bool
  | [] => listIsPrefixOf needle []
  | b :: bs => listIsPrefixOf needle (b :: bs) || listIsSubOf needle bs

/-- Python `needle in hay` on strings (literal substring containment). -/
def strContains (hay needle : String) : Bool := listIsSubOf needle.data hay.data

/-- Accumulator-based word splitter: split on whitespace runs, drop empties. -/
def wordsAux : List Char → List Char → List (List Char)
  | [], acc => if acc.isEmpty then [] else [acc.reverse]
  | c :: cs, acc =>
    if c.isWhitespace then
      if acc.isEmpty then wordsAux cs [] else acc.reverse :: wordsAux cs []
    else wordsAux cs (c :: acc)

/-- Python `s.split()` (no separator argument): whitespace-run split. -/
def pySplit (s : String) : List String := (wordsAux s.data []).map String.mk

/-- Truthiness of an optional Python string (`None` and `""` are falsy). -/
def optStrTruthy : Option String → Bool
  | none => false
  | some s => s ≠ ""

/-- Python `a or b` for an optional string `a` and default `b`. -/
def strOrDefault (a : Option String) (b : String) : String :=
  match a with
  | none => b
  | some s => if s = "" then b else s

/-! ### Stable descending insertion sort (model of Python's stable
`sort(key=..., reverse=True)`) -/

/-- Insert `x` into `l` before the first element of not-larger score
(so among equal scores the element inserted last comes first). -/
def insertDescBy {α : Type} (score : α → Nat) (x : α) : List α → List α
  | [] => [x]
  | y :: ys => if score y ≤ score x then x :: y :: ys else y :: insertDescBy score x ys

/-- Stable descending insertion sort by a `Nat` score. -/
def sortDescBy {α : Type} (score : α → Nat) : List α → List α
  | [] => []
  | x :: xs => insertDescBy score x (sortDescBy score xs)

/-! ### Session state (`state_schema.INITIAL_STATE` and `state_helpers.py`) -/

/-- One entry of `attempted_solutions` (see `add_attempted_solution`). -/
structure Attempt where
  solution : String
  agent : String
  result : String
  user_feedback : Option String
  timestamp : String
deriving Repr, DecidableEq

/-- The `issue` sub-dict written by `set_issue_context`. -/
structure Issue where
  category : String
  priority : String
  confidence : Rat
  description_summary : String
  error_type : Option String
  keywords : List String
  classified_at : String
deriving Repr, DecidableEq

/-- The session-state dict, with the keys of `INITIAL_STATE` (plus
`recent_tickets`, which `set_user_info` may add). -/
structure SessionState where
  conversation_id : String := ""
  user_id : String := ""
  started_at : String := ""
  last_activity : String := ""
  status : String := "new"
  current_agent : String := "orchestrator"
  turn_count : Nat := 0
  issue : Option Issue := none
  attempted_solutions : List Attempt := []
  solution_attempts_count : Nat := 0
  escalation_count : Nat := 0
  escalation_requested : Bool := false
  ticket_id : Option String := none
  triage_complete : Bool := false
  specialist_engaged : Bool := false
  clarifying_questions_asked : Nat := 0
  last_kb_search : Option String := none
  last_similar_tickets : List String := []
  system_status_checked : Bool := false
  user_context_loaded : Bool := false
  user_name : Option String := none
  user_plan : Option String := none
  user_frustration_level : String := "normal"
  recent_tickets : List String := []
deriving Repr, DecidableEq

/-- `get_initial_state(user_id, conversation_id)`. -/
def get_initial_state (user_id : String := "") (conversation_id : String := "")
    (now : String := "") : SessionState :=
  { conversation_id := conversation_id, user_id := user_id,
    started_at := now, last_activity := now }

/-- `set_issue_context`: overwrite the `issue` dict wholesale and stamp
`last_activity`. -/
def set_issue_context (s : SessionState) (category priority : String)
    (confidence : Rat) (description_summary : String)
    (error_type : Option String := none) (keywords : Option (List String) := none)
    (now : String := "") : SessionState :=
  { s with
    issue := some
      { category := category, priority := priority, confidence := confidence,
        description_summary := description_summary, error_type := error_type,
        keywords := keywords.getD [], classified_at := now },
    last_activity := now }

/-- `add_attempted_solution`: append one attempt, set the counter to the new
length, stamp `last_activity`. -/
def add_attempted_solution (s : SessionState) (solution agent : String)
    (result : String := "pending") (user_feedback : Option String := none)
    (now : String := "") : SessionState :=
  let solutions := s.attempted_solutions ++
    [{ solution := solution, agent := agent, result := result,
       user_feedback := user_feedback, timestamp := now }]
  { s with
    attempted_solutions := solutions,
    solution_attempts_count := solutions.length,
    last_activity := now }

/-- Replace the last element of a list by `f` of it (no-op on `[]`). -/
def mapLast {α : Type} (f : α → α) (l : List α) : List α :=
  match l.getLast? with
  | none => l
  | some a => l.dropLast ++ [f a]

/-- `update_solution_result`: amend the last attempt's `result` (and
`user_feedback` when truthy); a no-op on an empty list. -/
def update_solution_result (s : SessionState) (result : String)
    (user_feedback : Option String := none) (now : String := "") : SessionState :=
  match s.attempted_solutions with
  | [] => s
  | _ :: _ =>
    { s with
      attempted_solutions := mapLast
        (fun a =>
          { a with
            result := result,
            user_feedback :=
              if optStrTruthy user_feedback then user_feedback else a.user_feedback })
        s.attempted_solutions,
      last_activity := now }

/-- `set_conversation_status`. -/
def set_conversation_status (s : SessionState) (status : String)
    (now : String := "") : SessionState :=
  { s with status := status, last_activity := now }

/-- `set_current_agent`. -/
def set_current_agent (s : SessionState) (agent : String)
    (now : String := "") : SessionState :=
  { s with current_agent := agent, last_activity := now }

/-- `increment_turn_count` (the source does not stamp `last_activity` here). -/
def increment_turn_count (s : SessionState) : SessionState :=
  { s with turn_count := s.turn_count + 1 }

/-- `increment_clarifying_questions` (no `last_activity` stamp). -/
def increment_clarifying_questions (s : SessionState) : SessionState :=
  { s with clarifying_questions_asked := s.clarifying_questions_asked + 1 }

/-- `set_escalation_requested`: set the flag, bump the count, set
`status = "escalated"`, store `ticket_id` when truthy, stamp `last_activity`. -/
def set_escalation_requested (s : SessionState) (ticket_id : Option String := none)
    (now : String := "") : SessionState :=
  let s1 :=
    { s with
      escalation_requested := true,
      escalation_count := s.escalation_count + 1,
      status := "escalated" }
  let s2 :=
    if optStrTruthy ticket_id then { s1 with ticket_id := ticket_id } else s1
  { s2 with last_activity := now }

/-- `set_user_info`: store each truthy field, set `user_context_loaded`,
stamp `last_activity`. -/
def set_user_info (s : SessionState) (user_name : Option String := none)
    (user_plan : Option String := none) (user_id : Option String := none)
    (recent_tickets : Option (List String) := none) (now : String := "") :
    SessionState :=
  let s1 := if optStrTruthy user_name then { s with user_name := user_name } else s
  let s2 := if optStrTruthy user_plan then { s1 with user_plan := user_plan } else s1
  let s3 :=
    match user_id with
    | some u => if u ≠ "" then { s2 with user_id := u } else s2
    | none => s2
  let s4 :=
    match recent_tickets with
    | some l => if l ≠ [] then { s3 with recent_tickets := l } else s3
    | none => s3
  { s4 with user_context_loaded := true, last_activity := now }

/-- The fixed "angry" lexicon of `detect_frustration`. -/
def angry_words : List String :=
  ["ridiculous", "unacceptable", "terrible", "worst", "lawsuit",
   "refund", "cancel", "angry", "furious", "outraged"]

/-- The fixed "frustrated" lexicon of `detect_frustration`. -/
def frustrated_words : List String :=
  ["frustrated", "annoying", "still not working", "tried everything",
   "waste of time", "useless", "doesn\x27t help", "hours", "days",
   "again", "still", "keeps happening"]

/-- `detect_frustration`: classify the message, store the level in state,
and return it (the source does not stamp `last_activity` here). -/
def detect_frustration (s : SessionState) (user_message : String) :
    SessionState × String :=
  let message_lower := lowerStr user_message
  let level0 :=
    if angry_words.any (fun w => strContains message_lower w) then "angry"
    else if frustrated_words.any (fun w => strContains message_lower w) then
      "frustrated"
    else "normal"
  let caps := (user_message.data.filter Char.isUpper).length
  let n := user_message.data.length
  let level := if 2 * caps > max n 1 ∧ n > 10 then "angry" else level0
  ({ s with user_frustration_level := level }, level)

/-- `mark_triage_complete` (no `last_activity` stamp). -/
def mark_triage_complete (s : SessionState) : SessionState :=
  { s with triage_complete := true }

/-- `mark_specialist_engaged` (no `last_activity` stamp). -/
def mark_specialist_engaged (s : SessionState) : SessionState :=
  { s with specialist_engaged := true }

/-- `record_kb_search`: store the query and stamp `last_activity`. -/
def record_kb_search (s : SessionState) (query : String) (now : String := "") :
    SessionState :=
  { s with last_kb_search := some query, last_activity := now }

/-- `record_similar_tickets` (no `last_activity` stamp). -/
def record_similar_tickets (s : SessionState) (ticket_ids : List String) :
    SessionState :=
  { s with last_similar_tickets := ticket_ids }

/-- `mark_system_status_checked` (no `last_activity` stamp). -/
def mark_system_status_checked (s : SessionState) : SessionState :=
  { s with system_status_checked := true }

/-- `should_escalate`: failed-attempt count, then the stored escalation flag,
then the stored frustration level, with short-circuit OR. -/
def should_escalate (s : SessionState) (max_attempts : Nat := 2) : Bool :=
  let failed_attempts :=
    (s.attempted_solutions.filter (fun a => a.result == "not_helpful")).length
  if failed_attempts ≥ max_attempts then true
  else if s.escalation_requested then true
  else if s.user_frustration_level == "angry" then true
  else false

/-! ### The state-mutating operations as a step relation -/

/-- One call to a state-mutating helper of `state_helpers.py`; `now`
arguments carry the timestamp the Python code would read from the clock. -/
inductive StateOp where
  | opSetIssueContext (category priority : String) (confidence : Rat)
      (description_summary : String) (error_type : Option String)
      (keywords : Option (List String)) (now : String)
  | opAddAttemptedSolution (solution agent result : String)
      (user_feedback : Option String) (now : String)
  | opUpdateSolutionResult (result : String) (user_feedback : Option String)
      (now : String)
  | opSetConversationStatus (status : String) (now : String)
  | opSetCurrentAgent (agent : String) (now : String)
  | opIncrementTurnCount
  | opIncrementClarifyingQuestions
  | opSetEscalationRequested (ticket_id : Option String) (now : String)
  | opSetUserInfo (user_name user_plan user_id : Option String)
      (recent_tickets : Option (List String)) (now : String)
  | opDetectFrustration (user_message : String)
  | opMarkTriageComplete
  | opMarkSpecialistEngaged
  | opRecordKbSearch (query : String) (now : String)
  | opRecordSimilarTickets (ticket_ids : List String)
  | opMarkSystemStatusChecked
deriving Repr

/-- Apply one operation to the state. -/
def applyOp (s : SessionState) : StateOp → SessionState
  | .opSetIssueContext c p conf d e k now => set_issue_context s c p conf d e k now
  | .opAddAttemptedSolution sol ag r fb now => add_attempted_solution s sol ag r fb now
  | .opUpdateSolutionResult r fb now => update_solution_result s r fb now
  | .opSetConversationStatus st now => set_conversation_status s st now
  | .opSetCurrentAgent ag now => set_current_agent s ag now
  | .opIncrementTurnCount => increment_turn_count s
  | .opIncrementClarifyingQuestions => increment_clarifying_questions s
  | .opSetEscalationRequested tid now => set_escalation_requested s tid now
  | .opSetUserInfo un up uid rt now => set_user_info s un up uid rt now
  | .opDetectFrustration msg => (detect_frustration s msg).1
  | .opMarkTriageComplete => mark_triage_complete s
  | .opMarkSpecialistEngaged => mark_specialist_engaged s
  | .opRecordKbSearch q now => record_kb_search s q now
  | .opRecordSimilarTickets ids => record_similar_tickets s ids
  | .opMarkSystemStatusChecked => mark_system_status_checked s

/-- Run a sequence of operations from a starting state. -/
def runOps (s : SessionState) (ops : List StateOp) : SessionState :=
  ops.foldl applyOp s

/-! ### Knowledge base (`kb_tools.py`) -/

/-- One article of the mock knowledge base. -/
structure Article where
  id : String
  title : String
  category : String
  content : String
  keywords : List String
deriving Repr, DecidableEq

/-- The `KNOWLEDGE_BASE["articles"]` corpus, in source order. -/
def KNOWLEDGE_BASE : List Article :=
  [{ id := "KB001",
     title := "How to Reset Your Password",
     category := "password_reset",
     content := "To reset your password:\n1. Go to the login page and click \x27Forgot Password\x27\n2. Enter your email address\n3. Check your inbox for a reset link (check spam folder too)\n4. Click the link and create a new password\n5. Password must be at least 8 characters with one number and one special character\n\nIf you don\x27t receive the email within 5 minutes, contact support.",
     keywords := ["password", "reset", "forgot", "login", "access"] },
   { id := "KB002",
     title := "Webhook Configuration Guide",
     category := "integration",
     content := "Setting up webhooks:\n1. Navigate to Settings > Integrations > Webhooks\n2. Click \x27Add Webhook Endpoint\x27\n3. Enter your endpoint URL (must be HTTPS)\n4. Select the events you want to receive\n5. Copy the webhook secret for signature verification\n\nCommon issues:\n- Signature mismatch: Regenerate your webhook secret and update your code\n- Events not received: Check your endpoint returns 200 OK within 30 seconds\n- SSL errors: Ensure your certificate is valid and not self-signed",
     keywords := ["webhook", "integration", "api", "events", "endpoint", "signature"] },
   { id := "KB003",
     title := "API Authentication Guide",
     category := "integration",
     content := "API Authentication:\n1. Generate an API key from Settings > API Keys\n2. Include the key in the Authorization header: \x27Bearer YOUR_API_KEY\x27\n3. API keys are environment-specific (test/production)\n\nRate limits:\n- Standard plan: 100 requests/minute\n- Pro plan: 1000 requests/minute\n- Enterprise: Custom limits\n\nIf you receive 401 errors, verify your API key is correct and active.",
     keywords := ["api", "authentication", "auth", "key", "401", "bearer", "token"] },
   { id := "KB004",
     title := "Billing and Subscription FAQ",
     category := "billing",
     content := "Billing Information:\n- Invoices are generated on the 1st of each month\n- Payment methods: Credit card, ACH, Wire transfer (Enterprise only)\n- Upgrade/downgrade takes effect immediately, prorated billing applies\n\nCommon questions:\n- View invoices: Settings > Billing > Invoice History\n- Update payment method: Settings > Billing > Payment Methods\n- Cancel subscription: Settings > Billing > Manage Plan > Cancel",
     keywords := ["billing", "invoice", "payment", "subscription", "cancel", "upgrade"] },
   { id := "KB005",
     title := "Troubleshooting 500 Errors",
     category := "bug_report",
     content := "If you\x27re experiencing 500 Internal Server Errors:\n\n1. Check our status page for ongoing incidents\n2. Retry the request after a few seconds (may be temporary)\n3. If persistent, note:\n   - The exact endpoint being called\n   - Request body/parameters\n   - Time of occurrence\n   - Any error message returned\n\nCommon causes:\n- Large payload sizes (max 10MB)\n- Invalid JSON format\n- Missing required fields\n- Rate limit exceeded (returns 429, not 500)\n\nIf the issue persists, contact support with the details above.",
     keywords := ["500", "error", "server", "bug", "crash", "internal"] }]

/-- The `FAQ_DATABASE` topic/answer pairs, in source order. -/
def FAQ_DATABASE : List (String × String) :=
  [("password reset", "You can reset your password at the login page by clicking \x27Forgot Password\x27 and following the email instructions."),
   ("api rate limit", "Rate limits are: Standard (100/min), Pro (1000/min), Enterprise (custom). Check headers for X-RateLimit-Remaining."),
   ("webhook timeout", "Webhooks timeout after 30 seconds. Ensure your endpoint responds with 200 OK quickly. Process heavy operations asynchronously."),
   ("billing cycle", "Billing occurs on the 1st of each month. Changes are prorated."),
   ("cancel subscription", "Go to Settings > Billing > Manage Plan > Cancel. You\x27ll retain access until the end of your billing period."),
   ("api key", "Generate API keys at Settings > API Keys. Keep them secure and never share in public repositories."),
   ("supported browsers", "We support the latest versions of Chrome, Firefox, Safari, and Edge."),
   ("data export", "Export your data from Settings > Account > Export Data. Processing may take up to 24 hours for large accounts.")]

/-- The score accumulation of `search_knowledge_base` for one article,
translated step for step from the loop body. -/
def kbScore (query : String) (a : Article) : Nat :=
  let query_lower := lowerStr query
  let query_words := (pySplit query_lower).dedup
  let score : Nat := 0
  let score := if strContains (lowerStr a.title) query_lower then score + 10 else score
  let score := a.keywords.foldl
    (fun sc keyword =>
      if strContains query_lower keyword || query_words.contains keyword then sc + 5
      else sc)
    score
  let score := if strContains (lowerStr a.content) query_lower then score + 3 else score
  query_words.foldl
    (fun sc word =>
      if word.data.length > 3 then
        let sc := if strContains (lowerStr a.content) word then sc + 1 else sc
        if strContains (lowerStr a.title) word then sc + 2 else sc
      else sc)
    score

/-- One returned article of `search_knowledge_base`. -/
structure KBResult where
  id : String
  title : String
  category : String
  content : String
  relevance_score : Nat
deriving Repr, DecidableEq

/-- The result dict of `search_knowledge_base`; `message := none` records
that the source never puts a `message` key in this dict. -/
structure KBResponse where
  status : String
  articles : List KBResult
  total_found : Nat
  message : Option String
deriving Repr, DecidableEq

/-- The scored-and-filtered article list of `search_knowledge_base`
(`scored_articles` after the loop: score each article, keep score > 0,
in corpus order). -/
def kbScored (query : String) : List (Nat × Article) :=
  (KNOWLEDGE_BASE.map (fun a => (kbScore query a, a))).filter (fun p => 0 < p.1)

/-- `search_knowledge_base` (pure result; the session side effect is
`record_kb_search`, modelled separately as a `StateOp`). -/
def search_knowledge_base (query : String) (max_results : Nat := 3) : KBResponse :=
  let sorted := sortDescBy (fun p => p.1) (kbScored query)
  let results := (sorted.take max_results).map
    (fun p =>
      { id := p.2.id, title := p.2.title, category := p.2.category,
        content := p.2.content, relevance_score := p.1 })
  { status := "success", articles := results, total_found := results.length,
    message := none }

/-- The result dict of `get_faq_answer`. -/
structure FAQResponse where
  status : String
  topic : Option String
  answer : Option String
  message : Option String
deriving Repr, DecidableEq

/-- The fuzzy-match fold of `get_faq_answer`: best (strictly improving)
word-overlap over the FAQ topics, in source order. -/
def faqBestMatch (question_words : List String) :
    Option (String × String) × Nat :=
  FAQ_DATABASE.foldl
    (fun acc p =>
      let topic_words := (pySplit p.1).dedup
      let overlap := (question_words.filter (fun w => topic_words.contains w)).length
      if overlap > acc.2 then (some p, overlap) else acc)
    (none, 0)

/-- `get_faq_answer`: first topic that is a substring of the question, else
the best fuzzy word-overlap match (if ≥ 1), else `not_found`. -/
def get_faq_answer (question : String) : FAQResponse :=
  let question_lower := lowerStr question
  match FAQ_DATABASE.find? (fun p => strContains question_lower p.1) with
  | some p =>
    { status := "found", topic := some p.1, answer := some p.2, message := none }
  | none =>
    let question_words := (pySplit question_lower).dedup
    let best := faqBestMatch question_words
    match best.1 with
    | some p =>
      if best.2 ≥ 1 then
        { status := "found", topic := some p.1, answer := some p.2, message := none }
      else
        { status := "not_found", topic := none, answer := none,
          message := some "No FAQ entry found for this question. Try searching the knowledge base for more detailed articles." }
    | none =>
      { status := "not_found", topic := none, answer := none,
        message := some "No FAQ entry found for this question. Try searching the knowledge base for more detailed articles." }

/-! ### Ticket system (`ticket_system.py`) -/

/-- A ticket record: the mock historical tickets carry `resolved_at` /
`resolution`; tickets made by `create_ticket` carry the snapshot fields
(`attempted_solutions`, `user_id`, `frustration_level`, `turn_count`).
Absent dict keys are `none` / defaulted, matching the `.get` reads. -/
structure Ticket where
  id : String
  title : String
  category : String
  priority : String
  status : String
  assigned_team : String
  created_at : String
  resolved_at : Option String := none
  description : String := ""
  resolution : Option String := none
  attempted_solutions : List String := []
  user_id : Option String := none
  frustration_level : String := "normal"
  turn_count : Nat := 0
deriving Repr, DecidableEq

/-- The initial `TICKET_DATABASE`, in dict insertion order. -/
def TICKET_DATABASE : List Ticket :=
  [{ id := "TICKET-789", title := "Cannot connect to API",
     category := "integration", priority := "high", status := "resolved",
     assigned_team := "integration_team", created_at := "2024-12-20T10:00:00Z",
     resolved_at := some "2024-12-20T14:30:00Z",
     description := "User unable to authenticate with API using provided key",
     resolution := some "API key was for test environment, provided production key" },
   { id := "TICKET-456", title := "Webhook events not received",
     category := "integration", priority := "high", status := "resolved",
     assigned_team := "integration_team", created_at := "2024-11-15T08:00:00Z",
     resolved_at := some "2024-11-15T12:00:00Z",
     description := "Customer\x27s webhook endpoint stopped receiving events after API v2 update",
     resolution := some "Webhook secret was regenerated during API update. Customer needed to update their verification code with new secret." },
   { id := "TICKET-234", title := "Billing discrepancy",
     category := "billing", priority := "medium", status := "resolved",
     assigned_team := "finance_team", created_at := "2024-10-05T14:00:00Z",
     resolved_at := some "2024-10-06T09:00:00Z",
     description := "Customer charged twice for the same month",
     resolution := some "Duplicate charge refunded, billing system bug fixed" },
   { id := "TICKET-567", title := "Performance degradation on dashboard",
     category := "performance", priority := "medium", status := "resolved",
     assigned_team := "infrastructure_team", created_at := "2024-11-20T16:00:00Z",
     resolved_at := some "2024-11-21T10:00:00Z",
     description := "Dashboard loading very slowly, 10+ seconds per page",
     resolution := some "Database index added, caching layer implemented" }]

/-- `TEAM_ASSIGNMENTS`, in source order. -/
def TEAM_ASSIGNMENTS : List (String × String) :=
  [("password_reset", "account_team"),
   ("billing", "finance_team"),
   ("order", "order_fullfillment_team"),
   ("bug_report", "engineering_team"),
   ("feature_question", "product_team"),
   ("performance", "infrastructure_team"),
   ("security", "security_team"),
   ("unknown", "general_support")]

/-- `RESPONSE_SLAS` (hours by priority). -/
def RESPONSE_SLAS : List (String × Nat) :=
  [("critical", 1), ("high", 4), ("medium", 8), ("low", 24)]

/-- Python `TABLE.get(key, default)` on an association list. -/
def dictGetD {α : Type} (table : List (String × α)) (key : String) (default : α) : α :=
  match table.find? (fun p => p.1 == key) with
  | some p => p.2
  | none => default

/-- `_generate_ticket_id` applied to one `random.randint(1000, 9999)` draw. -/
def generate_ticket_id (draw : Nat) : String :=
  "TICKET-" ++ toString draw

/-- The retry loop of `create_ticket`: keep drawing until the candidate id
collides with no key of the database; `none` when the modelled draw stream
runs out (the Python loop would keep drawing). -/
def genUniqueTicketId (db : List Ticket) : List Nat → Option (String × List Nat)
  | [] => none
  | draw :: rest =>
    let tid := generate_ticket_id draw
    if db.any (fun t => t.id == tid) then genUniqueTicketId db rest
    else some (tid, rest)

/-- The result dict of `create_ticket`. -/
structure CreateTicketResult where
  status : String
  ticket_id : String
  assigned_team : String
  estimated_response : String
  priority : String
  message : String
deriving Repr, DecidableEq

/-- `create_ticket`: generate a fresh id, build the ticket snapshot, store it
in the database, and record the escalation in session state. Returns the
result dict plus the updated database, session state and draw stream. -/
def create_ticket (db : List Ticket) (s : SessionState) (rng : List Nat)
    (summary category priority description : String)
    (attempted_solutions : Option (List String) := none)
    (user_id : Option String := none) (now : String := "") :
    Option (CreateTicketResult × List Ticket × SessionState × List Nat) :=
  match genUniqueTicketId db rng with
  | none => none
  | some (ticket_id, rng') =>
    let assigned_team := dictGetD TEAM_ASSIGNMENTS category "general_support"
    let response_hours := dictGetD RESPONSE_SLAS priority 24
    let sols : List String :=
      match attempted_solutions with
      | some (l@(_ :: _)) => l
      | _ => s.attempted_solutions.map (fun a => a.solution)
    let uid : String :=
      match user_id with
      | some (u@_) => if u = "" then s.user_id else u
      | none => s.user_id
    let ticket : Ticket :=
      { id := ticket_id, title := summary, category := category,
        priority := priority, status := "open", assigned_team := assigned_team,
        created_at := now, description := description,
        attempted_solutions := sols, user_id := some uid,
        frustration_level := s.user_frustration_level,
        turn_count := s.turn_count }
    let db' := db ++ [ticket]
    let s' := set_escalation_requested s (some ticket_id) now
    let result : CreateTicketResult :=
      { status := "success", ticket_id := ticket_id,
        assigned_team := assigned_team,
        estimated_response := toString response_hours ++ " hour(s)",
        priority := priority,
        message := "Ticket " ++ ticket_id ++ " created successfully and assigned to "
          ++ assigned_team ++ ". Expected response within "
          ++ toString response_hours ++ " hour(s)." }
    some (result, db', s', rng')

/-- The score accumulation of `search_similar_tickets` for one surviving
ticket, translated step for step from the loop body. -/
def ticketScore (keywords : List String) (category : Option String) (t : Ticket) :
    Nat :=
  let score : Nat := 0
  let title_lower := lowerStr t.title
  let score := keywords.foldl
    (fun sc word =>
      if word.data.length > 3 && strContains title_lower word then sc + 3 else sc)
    score
  let desc_lower := lowerStr t.description
  let score := keywords.foldl
    (fun sc word =>
      if word.data.length > 3 && strContains desc_lower word then sc + 1 else sc)
    score
  if optStrTruthy category && (t.category == category.getD "") then score + 2
  else score

/-- One returned entry of `search_similar_tickets`. -/
structure TicketResult where
  ticket_id : String
  title : String
  category : String
  description : String
  resolution : String
  relevance_score : Nat
deriving Repr, DecidableEq

/-- The result dict of `search_similar_tickets` (its `message` key is set on
both branches, so it is not optional). -/
structure TicketSearchResponse where
  status : String
  similar_tickets : List TicketResult
  total_found : Nat
  message : String
deriving Repr, DecidableEq

/-- The candidate filter of `search_similar_tickets`: only resolved tickets,
and a hard category filter when `category` is truthy. -/
def ticketCandidate (category : Option String) (t : Ticket) : Bool :=
  t.status == "resolved" &&
    (if optStrTruthy category then t.category == category.getD "" else true)

/-- The distinct words of the lower-cased description (Python
`set(description_lower.split())`). -/
def descKeywords (description : String) : List String :=
  (pySplit (lowerStr description)).dedup

/-- The scored-and-filtered ticket list of `search_similar_tickets`
(`scored_tickets` after the loop: resolved tickets passing the category
filter, scored, score > 0 kept, in corpus order). -/
def ticketScored (db : List Ticket) (description : String)
    (category : Option String) : List (Nat × Ticket) :=
  ((db.filter (ticketCandidate category)).map
      (fun t => (ticketScore (descKeywords description) category t, t))).filter
    (fun p => 0 < p.1)

/-- `search_similar_tickets` over the current database (pure result; the
`record_similar_tickets` side effect is applied by
`search_similar_tickets_tool` below). -/
def search_similar_tickets (db : List Ticket) (description : String)
    (category : Option String := none) (limit : Nat := 3) : TicketSearchResponse :=
  let top_tickets := (sortDescBy (fun p => p.1) (ticketScored db description category)).take limit
  let similar_tickets := top_tickets.map
    (fun p =>
      { ticket_id := p.2.id, title := p.2.title, category := p.2.category,
        description := p.2.description,
        resolution := p.2.resolution.getD "No resolution recorded",
        relevance_score := p.1 })
  { status := "success", similar_tickets := similar_tickets,
    total_found := similar_tickets.length,
    message :=
      if similar_tickets.isEmpty then
        "No similar resolved tickets found. This may be a new issue type."
      else
        "Found " ++ toString similar_tickets.length
          ++ " similar resolved ticket(s) that may help" }

/-- The full tool: result plus the session-state effect (`record_similar_tickets`
only when at least one match was found). -/
def search_similar_tickets_tool (db : List Ticket) (s : SessionState)
    (description : String) (category : Option String := none) (limit : Nat := 3) :
    SessionState × TicketSearchResponse :=
  let resp := search_similar_tickets db description category limit
  if resp.similar_tickets.isEmpty then (s, resp)
  else (record_similar_tickets s (resp.similar_tickets.map (fun t => t.ticket_id)), resp)

/-! ### User context (`user_context.py`) -/

/-- One record of the mock user directory. -/
structure UserRecord where
  name : String
  email : String
  plan : String
  account_status : String
  created_at : String
  recent_tickets : List String
  api_key_count : Nat
  webhook_count : Nat
  last_login : String
deriving Repr, DecidableEq

/-- `MOCK_USERS`, in source order. -/
def MOCK_USERS : List (String × UserRecord) :=
  [("user_123",
    { name := "John Smith", email := "john.smith@example.com", plan := "Pro",
      account_status := "active", created_at := "2024-01-15",
      recent_tickets := ["TICKET-456", "TICKET-234"], api_key_count := 2,
      webhook_count := 3, last_login := "2025-01-10" }),
   ("user_456",
    { name := "Jane Doe", email := "jane.doe@company.com", plan := "Enterprise",
      account_status := "active", created_at := "2023-06-20",
      recent_tickets := [], api_key_count := 5, webhook_count := 10,
      last_login := "2025-01-12" }),
   ("demo_user",
    { name := "Jack Sparrow", email := "demo@example.com", plan := "Standard",
      account_status := "active", created_at := "2024-11-01",
      recent_tickets := ["TICKET-789"], api_key_count := 1, webhook_count := 1,
      last_login := "2025-01-12" })]

/-- `DEFAULT_USER_ID`. -/
def DEFAULT_USER_ID : String := "demo_user"

/-- The `user` payload of a successful `get_user_context`. -/
structure UserPayload where
  name : String
  email : String
  plan : String
  account_status : String
deriving Repr, DecidableEq

/-- The `support_context` payload of a successful `get_user_context`. -/
structure SupportContext where
  recent_tickets : List String
  ticket_count : Nat
deriving Repr, DecidableEq

/-- The result dict of `get_user_context`. -/
structure UserContextResponse where
  status : String
  user : Option UserPayload
  support_context : Option SupportContext
  error_message : Option String
  suggestion : Option String
deriving Repr, DecidableEq

/-- `get_user_context`: resolve a falsy `user_id` to `DEFAULT_USER_ID`, look
the id up in `MOCK_USERS`; on success store the user info in session state,
on failure return an error and leave the state untouched. -/
def get_user_context (s : SessionState) (user_id : Option String := none)
    (now : String := "") : SessionState × UserContextResponse :=
  let lookup_id := strOrDefault user_id DEFAULT_USER_ID
  match MOCK_USERS.find? (fun p => p.1 == lookup_id) with
  | some p =>
    let user := p.2
    let s' := set_user_info s (some user.name) (some user.plan) (some lookup_id)
      (some user.recent_tickets) now
    (s',
     { status := "success",
       user := some
         { name := user.name, email := user.email, plan := user.plan,
           account_status := user.account_status },
       support_context := some
         { recent_tickets := user.recent_tickets,
           ticket_count := user.recent_tickets.length },
       error_message := none, suggestion := none })
  | none =>
    (s,
     { status := "error", user := none, support_context := none,
       error_message := some ("User \x27" ++ lookup_id ++ "\x27 not found in the system"),
       suggestion := some "Please verify the user ID or proceed without user context" })

/-! ### Spec-side restatements

The scoring and classification rules, restated in the summed / clause form
the specification text uses. The refinement theorems below prove them equal
to the loop translations above. -/

/-- Spec clause: +10 if the full lower-cased query is a literal substring of
the title. -/
def kbTitleBonus (query : String) (a : Article) : Nat :=
  if strContains (lowerStr a.title) (lowerStr query) then 10 else 0

/-- Spec clause: +5 for each corpus keyword that is a substring of the query
or an exact member of the query's word set. -/
def kbKeywordBonus (query : String) (a : Article) : Nat :=
  5 * (a.keywords.filter
    (fun k => strContains (lowerStr query) k
      || ((pySplit (lowerStr query)).dedup).contains k)).length

/-- Spec clause: +3 if the full query is a literal substring of the content. -/
def kbContentBonus (query : String) (a : Article) : Nat :=
  if strContains (lowerStr a.content) (lowerStr query) then 3 else 0

/-- Spec clause: for every query word longer than 3 characters, +1 if it
appears in the content and +2 if it appears in the title. -/
def kbWordBonus (query : String) (a : Article) : Nat :=
  (((pySplit (lowerStr query)).dedup).map
    (fun w =>
      if w.data.length > 3 then
        (if strContains (lowerStr a.content) w then 1 else 0)
          + (if strContains (lowerStr a.title) w then 2 else 0)
      else 0)).sum

/-- The article score as the spec sums it. -/
def kbScoreSpec (query : String) (a : Article) : Nat :=
  kbTitleBonus query a + kbKeywordBonus query a + kbContentBonus query a
    + kbWordBonus query a

/-- Spec clause: +3 per description word longer than 3 characters appearing
in the ticket title. -/
def ticketTitleBonus (keywords : List String) (t : Ticket) : Nat :=
  3 * (keywords.filter
    (fun w => w.data.length > 3 && strContains (lowerStr t.title) w)).length

/-- Spec clause: +1 per description word longer than 3 characters appearing
in the ticket description. -/
def ticketDescBonus (keywords : List String) (t : Ticket) : Nat :=
  (keywords.filter
    (fun w => w.data.length > 3 && strContains (lowerStr t.description) w)).length

/-- Spec clause: +2 when a category was supplied and matches. -/
def ticketCategoryBonus (category : Option String) (t : Ticket) : Nat :=
  if optStrTruthy category && (t.category == category.getD "") then 2 else 0

/-- The ticket score as the spec sums it. -/
def ticketScoreSpec (keywords : List String) (category : Option String)
    (t : Ticket) : Nat :=
  ticketTitleBonus keywords t + ticketDescBonus keywords t
    + ticketCategoryBonus category t

/-- The frustration rule as the spec states it: the shouting override first
(it wins regardless of lexicon), then the angry lexicon, then the
frustrated lexicon, else normal. -/
def frustrationSpec (msg : String) : String :=
  let caps := (msg.data.filter Char.isUpper).length
  let n := msg.data.length
  if 2 * caps > max n 1 ∧ n > 10 then "angry"
  else if angry_words.any (fun w => strContains (lowerStr msg) w) then "angry"
  else if frustrated_words.any (fun w => strContains (lowerStr msg) w) then
    "frustrated"
  else "normal"

/-- The bookkeeping invariant of §3 of the design: the stored counter equals
the length of `attempted_solutions`. -/
def countInv (s : SessionState) : Prop :=
  s.solution_attempts_count = s.attempted_solutions.length

instance (s : SessionState) : Decidable (countInv s) := by
  unfold countInv; infer_instance

/-- The `ticket_id` write an operation performs: only
`set_escalation_requested` with a truthy ticket id writes the field. -/
def opTicketWrite : StateOp → Option String
  | .opSetEscalationRequested tid _ => if optStrTruthy tid then tid else none
  | _ => none

/-- The `last_activity` stamp an operation performs (`none` = the operation
leaves the field alone); `update_solution_result` stamps only when the
attempts list is nonempty. -/
def opStamp (s : SessionState) : StateOp → Option String
  | .opSetIssueContext _ _ _ _ _ _ now => some now
  | .opAddAttemptedSolution _ _ _ _ now => some now
  | .opUpdateSolutionResult _ _ now =>
    if s.attempted_solutions.isEmpty then none else some now
  | .opSetConversationStatus _ now => some now
  | .opSetCurrentAgent _ now => some now
  | .opSetEscalationRequested _ now => some now
  | .opSetUserInfo _ _ _ _ now => some now
  | .opRecordKbSearch _ now => some now
  | _ => none

/-! ### General lemmas about the folds and the stable descending sort -/

theorem foldl_add_contrib {α : Type} (step : Nat → α → Nat) (contrib : α → Nat)
    (hstep : ∀ sc x, step sc x = sc + contrib x) :
    ∀ (l : List α) (init : Nat), l.foldl step init = init + (l.map contrib).sum := by
  intro l
  induction l with
  | nil => intro init; simp
  | cons h t ih =>
    intro init
    rw [List.foldl_cons, hstep, ih, List.map_cons, List.sum_cons]
    omega

theorem sum_map_if {α : Type} (p : α → Bool) (c : Nat) (l : List α) :
    (l.map (fun x => if p x then c else 0)).sum = c * (l.filter p).length := by
  induction l with
  | nil => simp
  | cons h t ih =>
    simp only [List.map_cons, List.sum_cons, List.filter_cons]
    by_cases hp : p h
    · simp only [hp, if_true, List.length_cons, Nat.mul_succ, ih]
      omega
    · simp [hp, ih]

theorem length_insertDescBy {α : Type} (f : α → Nat) (x : α) :
    ∀ l : List α, (insertDescBy f x l).length = l.length + 1 := by
  intro l
  induction l with
  | nil => rfl
  | cons y ys ih =>
    by_cases h : f y ≤ f x <;> simp [insertDescBy, h, ih]

theorem length_sortDescBy {α : Type} (f : α → Nat) :
    ∀ l : List α, (sortDescBy f l).length = l.length := by
  intro l
  induction l with
  | nil => rfl
  | cons x xs ih => rw [sortDescBy, length_insertDescBy, ih]; rfl

theorem mem_insertDescBy {α : Type} (f : α → Nat) (x a : α) :
    ∀ l : List α, a ∈ insertDescBy f x l ↔ a = x ∨ a ∈ l := by
  intro l
  induction l with
  | nil => simp [insertDescBy]
  | cons y ys ih =>
    by_cases h : f y ≤ f x
    · simp [insertDescBy, h]
    · simp [insertDescBy, h, ih]
      tauto

theorem mem_sortDescBy {α : Type} (f : α → Nat) (a : α) :
    ∀ l : List α, a ∈ sortDescBy f l ↔ a ∈ l := by
  intro l
  induction l with
  | nil => simp [sortDescBy]
  | cons x xs ih => simp [sortDescBy, mem_insertDescBy, ih]

theorem pairwise_insertDescBy {α : Type} (f : α → Nat) (x : α) :
    ∀ l : List α, List.Pairwise (fun a b => f b ≤ f a) l →
      List.Pairwise (fun a b => f b ≤ f a) (insertDescBy f x l) := by
  intro l
  induction l with
  | nil => intro _; simp [insertDescBy]
  | cons y ys ih =>
    intro hl
    rw [List.pairwise_cons] at hl
    by_cases h : f y ≤ f x
    · simp only [insertDescBy, if_pos h, List.pairwise_cons]
      refine ⟨?_, ?_, hl.2⟩
      · intro z hz
        rcases List.mem_cons.mp hz with hz | hz
        · exact hz ▸ h
        · exact le_trans (hl.1 z hz) h
      · exact hl.1
    · simp only [insertDescBy, if_neg h, List.pairwise_cons]
      refine ⟨?_, ih hl.2⟩
      intro z hz
      rcases (mem_insertDescBy f x z ys).mp hz with hz | hz
      · exact hz ▸ Nat.le_of_lt (Nat.lt_of_not_le h)
      · exact hl.1 z hz

theorem pairwise_sortDescBy {α : Type} (f : α → Nat) :
    ∀ l : List α, List.Pairwise (fun a b => f b ≤ f a) (sortDescBy f l) := by
  intro l
  induction l with
  | nil => simp [sortDescBy]
  | cons x xs ih => exact pairwise_insertDescBy f x _ ih

theorem filter_insertDescBy_pos {α : Type} (f : α → Nat) (x : α) (c : Nat)
    (hx : f x = c) :
    ∀ l : List α,
      (insertDescBy f x l).filter (fun y => f y == c)
        = x :: l.filter (fun y => f y == c) := by
  intro l
  induction l with
  | nil => simp [insertDescBy, hx]
  | cons y ys ih =>
    by_cases h : f y ≤ f x
    · simp only [insertDescBy, if_pos h]
      simp [List.filter_cons, hx]
    · have hy : ¬(f y = c) := by omega
      simp only [insertDescBy, if_neg h]
      simp [List.filter_cons, hy, ih]

theorem filter_insertDescBy_neg {α : Type} (f : α → Nat) (x : α) (c : Nat)
    (hx : ¬(f x = c)) :
    ∀ l : List α,
      (insertDescBy f x l).filter (fun y => f y == c)
        = l.filter (fun y => f y == c) := by
  intro l
  induction l with
  | nil => simp [insertDescBy, hx]
  | cons y ys ih =>
    by_cases h : f y ≤ f x <;> simp [insertDescBy, h, hx, List.filter_cons, ih]

/-- Stability of `sortDescBy`: within each score class the original order is
kept, so `sortDescBy` computes exactly Python's stable descending sort. -/
theorem filter_sortDescBy {α : Type} (f : α → Nat) (c : Nat) :
    ∀ l : List α,
      (sortDescBy f l).filter (fun y => f y == c)
        = l.filter (fun y => f y == c) := by
  intro l
  induction l with
  | nil => rfl
  | cons x xs ih =>
    by_cases hx : f x = c
    · rw [sortDescBy, filter_insertDescBy_pos f x c hx, ih]
      simp [List.filter_cons, hx]
    · rw [sortDescBy, filter_insertDescBy_neg f x c hx, ih]
      simp [List.filter_cons, hx]

/-! ### Refinement lemmas: the loop scores equal the spec sums -/

theorem kbScore_eq_spec (query : String) (a : Article) :
    kbScore query a = kbScoreSpec query a := by
  have hkw :
      ∀ (init : Nat),
        a.keywords.foldl
          (fun sc keyword =>
            if strContains (lowerStr query) keyword
                || ((pySplit (lowerStr query)).dedup).contains keyword then
              sc + 5
            else sc)
          init
        = init
          + (a.keywords.map
              (fun keyword =>
                if strContains (lowerStr query) keyword
                    || ((pySplit (lowerStr query)).dedup).contains keyword then
                  (5 : Nat)
                else 0)).sum := by
    intro init
    exact foldl_add_contrib _ _ (fun sc x => by split_ifs <;> omega) a.keywords init
  have hwd :
      ∀ (init : Nat),
        ((pySplit (lowerStr query)).dedup).foldl
          (fun sc word =>
            if word.data.length > 3 then
              if strContains (lowerStr a.title) word then
                (if strContains (lowerStr a.content) word then sc + 1 else sc) + 2
              else (if strContains (lowerStr a.content) word then sc + 1 else sc)
            else sc)
          init
        = init
          + (((pySplit (lowerStr query)).dedup).map
              (fun word =>
                if word.data.length > 3 then
                  (if strContains (lowerStr a.content) word then (1 : Nat) else 0)
                    + (if strContains (lowerStr a.title) word then 2 else 0)
                else 0)).sum := by
    intro init
    exact foldl_add_contrib _ _ (fun sc x => by split_ifs <;> omega) _ init
  simp only [kbScore, kbScoreSpec, kbTitleBonus, kbKeywordBonus, kbContentBonus,
    kbWordBonus, hkw, hwd, sum_map_if]
  split_ifs <;> omega

theorem ticketScore_eq_spec (keywords : List String) (category : Option String)
    (t : Ticket) :
    ticketScore keywords category t = ticketScoreSpec keywords category t := by
  have ht :
      ∀ (init : Nat),
        keywords.foldl
          (fun sc word =>
            if word.data.length > 3 && strContains (lowerStr t.title) word then
              sc + 3
            else sc)
          init
        = init
          + (keywords.map
              (fun word =>
                if word.data.length > 3 && strContains (lowerStr t.title) word then
                  (3 : Nat)
                else 0)).sum := by
    intro init
    exact foldl_add_contrib _ _ (fun sc x => by split_ifs <;> omega) keywords init
  have hd :
      ∀ (init : Nat),
        keywords.foldl
          (fun sc word =>
            if word.data.length > 3 && strContains (lowerStr t.description) word then
              sc + 1
            else sc)
          init
        = init
          + (keywords.map
              (fun word =>
                if word.data.length > 3 && strContains (lowerStr t.description) word then
                  (1 : Nat)
                else 0)).sum := by
    intro init
    exact foldl_add_contrib _ _ (fun sc x => by split_ifs <;> omega) keywords init
  simp only [ticketScore, ticketScoreSpec, ticketTitleBonus, ticketDescBonus,
    ticketCategoryBonus, ht, hd, sum_map_if]
  split_ifs <;> omega

/-! ### Helper lemmas about state operations and ticket creation -/

theorem length_mapLast {α : Type} (f : α → α) (l : List α) :
    (mapLast f l).length = l.length := by
  cases l with
  | nil => rfl
  | cons x xs =>
    unfold mapLast
    rw [List.getLast?_eq_getLast (x :: xs) (List.cons_ne_nil x xs)]
    simp [List.length_dropLast]

theorem generate_ticket_id_ne_empty (draw : Nat) : generate_ticket_id draw ≠ "" := by
  intro h
  have hd : (generate_ticket_id draw).data = [] := by rw [h]
  rw [generate_ticket_id, String.data_append] at hd
  simp at hd

theorem genUniqueTicketId_ne_empty (db : List Ticket) :
    ∀ (rng : List Nat) (tid : String) (rest : List Nat),
      genUniqueTicketId db rng = some (tid, rest) → tid ≠ "" := by
  intro rng
  induction rng with
  | nil => intro tid rest h; simp [genUniqueTicketId] at h
  | cons d ds ih =>
    intro tid rest h
    rw [genUniqueTicketId] at h
    by_cases hc : db.any (fun t => t.id == generate_ticket_id d) = true
    · rw [if_pos hc] at h
      exact ih tid rest h
    · rw [if_neg hc] at h
      obtain ⟨h1, _⟩ := Prod.mk.injEq .. ▸ Option.some.inj h
      rw [← h1]
      exact generate_ticket_id_ne_empty d

theorem genUniqueTicketId_fresh (db : List Ticket) :
    ∀ (rng : List Nat) (tid : String) (rest : List Nat),
      genUniqueTicketId db rng = some (tid, rest) →
        db.any (fun t => t.id == tid) = false := by
  intro rng
  induction rng with
  | nil => intro tid rest h; simp [genUniqueTicketId] at h
  | cons d ds ih =>
    intro tid rest h
    rw [genUniqueTicketId] at h
    by_cases hc : db.any (fun t => t.id == generate_ticket_id d) = true
    · rw [if_pos hc] at h
      exact ih tid rest h
    · rw [if_neg hc] at h
      obtain ⟨h1, _⟩ := Prod.mk.injEq .. ▸ Option.some.inj h
      rw [← h1]
      exact Bool.eq_false_iff.mpr hc

/-! ### Claim theorems -/

/-- C1: `should_escalate s max_attempts` returns true if and only if at least
one of the following holds: the number of `attempted_solutions` entries whose
`result` equals `"not_helpful"` is at least `max_attempts`, the
`escalation_requested` flag is already true, or the stored
`user_frustration_level` equals `"angry"`; it returns false when none of the
three conditions holds. -/
theorem C1_should_escalate_iff (s : SessionState) (max_attempts : Nat) :
    should_escalate s max_attempts = true ↔
      ((s.attempted_solutions.filter (fun a => a.result == "not_helpful")).length
          ≥ max_attempts
        ∨ s.escalation_requested = true
        ∨ s.user_frustration_level = "angry") := by
  unfold should_escalate
  split_ifs <;> simp_all

/-- C3: `detect_frustration` computes exactly the spec's classification
(`frustrationSpec`: shouting override, else angry lexicon, else frustrated
lexicon, else normal), writes it into `user_frustration_level` and also
returns it; the result is `"angry"` iff the caps-ratio override fires or an
angry lexicon word occurs, and `"frustrated"` iff neither of those holds and
a frustrated lexicon word occurs; the two spec examples evaluate to
`"angry"` and `"frustrated"`. -/
theorem C3_detect_frustration_correct :
    (∀ (s : SessionState) (msg : String),
      detect_frustration s msg
        = ({ s with user_frustration_level := frustrationSpec msg },
            frustrationSpec msg))
    ∧ (∀ (s : SessionState) (msg : String),
        (detect_frustration s msg).1.user_frustration_level
          = (detect_frustration s msg).2)
    ∧ (∀ msg : String,
        frustrationSpec msg = "angry" ↔
          ((2 * (msg.data.filter Char.isUpper).length > max msg.data.length 1
              ∧ msg.data.length > 10)
            ∨ angry_words.any (fun w => strContains (lowerStr msg) w) = true))
    ∧ (∀ msg : String,
        frustrationSpec msg = "frustrated" ↔
          (¬(2 * (msg.data.filter Char.isUpper).length > max msg.data.length 1
              ∧ msg.data.length > 10)
            ∧ angry_words.any (fun w => strContains (lowerStr msg) w) = false
            ∧ frustrated_words.any (fun w => strContains (lowerStr msg) w) = true))
    ∧ ((detect_frustration (get_initial_state "" "" "")
          "THIS IS TERRIBLE AND I AM FURIOUS!!!").2 = "angry")
    ∧ ((detect_frustration (get_initial_state "" "" "")
          "I tried everything and it\x27s still not working").2 = "frustrated") := by
  refine ⟨fun s msg => rfl, fun s msg => rfl, fun msg => ?_, fun msg => ?_, rfl, rfl⟩
  · simp only [frustrationSpec]
    split_ifs with hC hA _hF
    · exact iff_of_true rfl (Or.inl hC)
    · exact iff_of_true rfl (Or.inr hA)
    · exact iff_of_false (by decide) (fun h => h.elim hC hA)
    · exact iff_of_false (by decide) (fun h => h.elim hC hA)
  · simp only [frustrationSpec]
    split_ifs with hC hA hF
    · exact iff_of_false (by decide) (fun h => h.1 hC)
    · exact iff_of_false (by decide) (fun h => by simp [h.2.1] at hA)
    · exact iff_of_true rfl ⟨hC, Bool.eq_false_iff.mpr hA, hF⟩
    · exact iff_of_false (by decide) (fun h => hF h.2.2)

/-- C4: `solution_attempts_count = length attempted_solutions` holds in the
initial state, `add_attempted_solution` appends exactly one entry and sets
the counter to the new length, `update_solution_result` changes neither the
list length nor the counter, every state operation preserves the invariant,
and hence it holds after any operation sequence from the initial state. -/
theorem C4_solution_count_invariant :
    (∀ u c now, countInv (get_initial_state u c now))
    ∧ (∀ (s : SessionState) (sol ag r : String) (fb : Option String) (now : String),
        (add_attempted_solution s sol ag r fb now).attempted_solutions.length
            = s.attempted_solutions.length + 1
          ∧ (add_attempted_solution s sol ag r fb now).solution_attempts_count
            = (add_attempted_solution s sol ag r fb now).attempted_solutions.length)
    ∧ (∀ (s : SessionState) (r : String) (fb : Option String) (now : String),
        (update_solution_result s r fb now).attempted_solutions.length
            = s.attempted_solutions.length
          ∧ (update_solution_result s r fb now).solution_attempts_count
            = s.solution_attempts_count)
    ∧ (∀ (s : SessionState) (op : StateOp), countInv s → countInv (applyOp s op))
    ∧ (∀ (u c now : String) (ops : List StateOp),
        countInv (runOps (get_initial_state u c now) ops)) := by
  have hadd :
      ∀ (s : SessionState) (sol ag r : String) (fb : Option String) (now : String),
        (add_attempted_solution s sol ag r fb now).attempted_solutions.length
            = s.attempted_solutions.length + 1
          ∧ (add_attempted_solution s sol ag r fb now).solution_attempts_count
            = (add_attempted_solution s sol ag r fb now).attempted_solutions.length := by
    intro s sol ag r fb now
    constructor
    · simp [add_attempted_solution]
    · rfl
  have hupd :
      ∀ (s : SessionState) (r : String) (fb : Option String) (now : String),
        (update_solution_result s r fb now).attempted_solutions.length
            = s.attempted_solutions.length
          ∧ (update_solution_result s r fb now).solution_attempts_count
            = s.solution_attempts_count := by
    intro s r fb now
    constructor
    · cases hs : s.attempted_solutions with
      | nil => simp [update_solution_result, hs]
      | cons x xs => simp [update_solution_result, hs, length_mapLast]
    · cases hs : s.attempted_solutions with
      | nil => simp [update_solution_result, hs]
      | cons x xs => simp [update_solution_result, hs]
  have hstep : ∀ (s : SessionState) (op : StateOp), countInv s → countInv (applyOp s op) := by
    intro s op h
    cases op with
    | opSetIssueContext c p conf d e k now => exact h
    | opAddAttemptedSolution sol ag r fb now =>
      have h2 := hadd s sol ag r fb now
      unfold countInv
      simp only [applyOp]
      omega
    | opUpdateSolutionResult r fb now =>
      have h2 := hupd s r fb now
      unfold countInv at h ⊢
      simp only [applyOp]
      omega
    | opSetConversationStatus st now => exact h
    | opSetCurrentAgent ag now => exact h
    | opIncrementTurnCount => exact h
    | opIncrementClarifyingQuestions => exact h
    | opSetEscalationRequested tid now =>
      unfold countInv at h ⊢
      simp only [applyOp, set_escalation_requested]
      split <;> exact h
    | opSetUserInfo un up uid rt now =>
      unfold countInv at h ⊢
      simp only [applyOp, set_user_info]
      repeat' split
      all_goals exact h
    | opDetectFrustration msg => exact h
    | opMarkTriageComplete => exact h
    | opMarkSpecialistEngaged => exact h
    | opRecordKbSearch q now => exact h
    | opRecordSimilarTickets ids => exact h
    | opMarkSystemStatusChecked => exact h
  refine ⟨fun u c now => rfl, hadd, hupd, hstep, ?_⟩
  intro u c now ops
  have hrun : ∀ (ops : List StateOp) (s : SessionState), countInv s → countInv (runOps s ops) := by
    intro ops
    induction ops with
    | nil => intro s h; exact h
    | cons op rest ih =>
      intro s h
      exact ih (applyOp s op) (hstep s op h)
  exact hrun ops (get_initial_state u c now) rfl

/-- C4 witness: the invariant holds after concretely adding one solution
attempt to the initial state. -/
theorem C4_solution_count_invariant_witness :
    countInv (applyOp (get_initial_state "" "" "T0")
      (StateOp.opAddAttemptedSolution "restart the webhook" "technical_support"
        "pending" none "T1")) :=
  C4_solution_count_invariant.2.2.2.1 (get_initial_state "" "" "T0")
    (StateOp.opAddAttemptedSolution "restart the webhook" "technical_support"
      "pending" none "T1") (by decide)

/-- C2: the knowledge-base score of every article is the spec's sum
(title +10, +5 per matching keyword, content +3, and per long query word
+1 content / +2 title); the returned articles number at most `max_results`,
are sorted by `relevance_score` descending, all carry a positive score that
is the score of a corpus article with their id, ties keep corpus order
(stability of the sort on the scored list), and the spec's example query
ranks KB002 first with score 15; the response always reports `status =
"success"` and `total_found` equal to the number of returned articles. -/
theorem C2_search_knowledge_base_correct :
    (∀ (query : String) (a : Article), kbScore query a = kbScoreSpec query a)
    ∧ (∀ (query : String) (max_results : Nat),
        (search_knowledge_base query max_results).articles.length ≤ max_results)
    ∧ (∀ (query : String) (max_results : Nat),
        List.Pairwise (fun r1 r2 => r2.relevance_score ≤ r1.relevance_score)
          (search_knowledge_base query max_results).articles)
    ∧ (∀ (query : String) (max_results : Nat) (r : KBResult),
        r ∈ (search_knowledge_base query max_results).articles →
          0 < r.relevance_score
            ∧ ∃ a ∈ KNOWLEDGE_BASE, r.id = a.id ∧ r.relevance_score = kbScore query a)
    ∧ (∀ (query : String) (c : Nat),
        (sortDescBy (fun p => p.1) (kbScored query)).filter (fun p => p.1 == c)
          = (kbScored query).filter (fun p => p.1 == c))
    ∧ ((search_knowledge_base "webhook signature error" 3).articles.map
          (fun r => (r.id, r.relevance_score))
        = [("KB002", 15), ("KB005", 8), ("KB003", 1)])
    ∧ (∀ (query : String) (max_results : Nat),
        (search_knowledge_base query max_results).status = "success"
          ∧ (search_knowledge_base query max_results).total_found
            = (search_knowledge_base query max_results).articles.length) := by
  refine ⟨kbScore_eq_spec, ?_, ?_, ?_, fun query c => filter_sortDescBy _ c _, by rfl,
    fun query max_results => ⟨rfl, rfl⟩⟩
  · intro query max_results
    simp only [search_knowledge_base]
    rw [List.length_map, List.length_take]
    exact Nat.min_le_left _ _
  · intro query max_results
    have hp := pairwise_sortDescBy (fun q : Nat × Article => q.1) (kbScored query)
    have hpt := hp.sublist (List.take_sublist max_results _)
    exact List.pairwise_map.mpr hpt
  · intro query max_results r hr
    simp only [search_knowledge_base] at hr
    obtain ⟨p, hp, hconv⟩ := List.mem_map.mp hr
    have hp2 : p ∈ sortDescBy (fun q => q.1) (kbScored query) :=
      List.take_subset _ _ hp
    have hp3 : p ∈ kbScored query := (mem_sortDescBy _ _ _).mp hp2
    obtain ⟨hmem, hpos⟩ := List.mem_filter.mp hp3
    obtain ⟨a, ha, hpa⟩ := List.mem_map.mp hmem
    subst hconv
    refine ⟨of_decide_eq_true hpos, a, ha, ?_, ?_⟩
    · show p.2.id = a.id
      rw [← hpa]
    · show p.1 = kbScore query a
      rw [← hpa]

/-- C2 witness: the KB002 result of the example query is a member of the
returned articles, so the membership conjunct applies to it concretely. -/
theorem C2_search_knowledge_base_correct_witness :
    0 < 15
      ∧ ∃ a ∈ KNOWLEDGE_BASE,
          ("KB002" : String) = a.id ∧ 15 = kbScore "webhook signature error" a :=
  C2_search_knowledge_base_correct.2.2.2.1 "webhook signature error" 3
    { id := "KB002", title := "Webhook Configuration Guide",
      category := "integration",
      content := "Setting up webhooks:\n1. Navigate to Settings > Integrations > Webhooks\n2. Click \x27Add Webhook Endpoint\x27\n3. Enter your endpoint URL (must be HTTPS)\n4. Select the events you want to receive\n5. Copy the webhook secret for signature verification\n\nCommon issues:\n- Signature mismatch: Regenerate your webhook secret and update your code\n- Events not received: Check your endpoint returns 200 OK within 30 seconds\n- SSL errors: Ensure your certificate is valid and not self-signed",
      relevance_score := 15 }
    (by decide)

/-- C5: `search_similar_tickets` considers only tickets passing
`ticketCandidate` (status `"resolved"`, and, when a category is supplied,
exactly that category — a hard filter); each surviving ticket's score is the
spec's sum (+3 per long description word in the title, +1 per long word in
the ticket description, +2 for a category match); zero-score tickets are
excluded, results are sorted descending with ties keeping corpus order
(stability of the sort on the scored list) and truncated to `limit`; the
spec's example query returns TICKET-456. -/
theorem C5_search_similar_tickets_correct :
    (∀ (keywords : List String) (category : Option String) (t : Ticket),
        ticketScore keywords category t = ticketScoreSpec keywords category t)
    ∧ (∀ (category : Option String) (t : Ticket),
        ticketCandidate category t = true ↔
          (t.status = "resolved"
            ∧ (optStrTruthy category = true → t.category = category.getD "")))
    ∧ (∀ (db : List Ticket) (d : String) (cat : Option String) (limit : Nat),
        (search_similar_tickets db d cat limit).similar_tickets.length ≤ limit)
    ∧ (∀ (db : List Ticket) (d : String) (cat : Option String) (limit : Nat),
        List.Pairwise (fun r1 r2 => r2.relevance_score ≤ r1.relevance_score)
          (search_similar_tickets db d cat limit).similar_tickets)
    ∧ (∀ (db : List Ticket) (d : String) (cat : Option String) (limit : Nat)
        (r : TicketResult),
        r ∈ (search_similar_tickets db d cat limit).similar_tickets →
          0 < r.relevance_score
            ∧ ∃ t ∈ db, ticketCandidate cat t = true ∧ r.ticket_id = t.id
                ∧ r.relevance_score = ticketScore (descKeywords d) cat t)
    ∧ (∀ (db : List Ticket) (d : String) (cat : Option String) (c : Nat),
        (sortDescBy (fun p => p.1) (ticketScored db d cat)).filter (fun p => p.1 == c)
          = (ticketScored db d cat).filter (fun p => p.1 == c))
    ∧ ((search_similar_tickets TICKET_DATABASE
          "webhook endpoint not receiving events" none 3).similar_tickets.map
          (fun r => (r.ticket_id, r.relevance_score))
        = [("TICKET-456", 10)]) := by
  refine ⟨ticketScore_eq_spec, ?_, ?_, ?_, ?_,
    fun db d cat c => filter_sortDescBy _ c _, by rfl⟩
  · intro cat t
    unfold ticketCandidate
    by_cases hc : optStrTruthy cat = true
    · simp [hc]
    · simp [hc]
  · intro db d cat limit
    simp only [search_similar_tickets]
    rw [List.length_map, List.length_take]
    exact Nat.min_le_left _ _
  · intro db d cat limit
    have hp := pairwise_sortDescBy (fun q : Nat × Ticket => q.1) (ticketScored db d cat)
    have hpt := hp.sublist (List.take_sublist limit _)
    exact List.pairwise_map.mpr hpt
  · intro db d cat limit r hr
    simp only [search_similar_tickets] at hr
    obtain ⟨p, hp, hconv⟩ := List.mem_map.mp hr
    have hp2 : p ∈ sortDescBy (fun q => q.1) (ticketScored db d cat) :=
      List.take_subset _ _ hp
    have hp3 : p ∈ ticketScored db d cat := (mem_sortDescBy _ _ _).mp hp2
    obtain ⟨hmem, hpos⟩ := List.mem_filter.mp hp3
    obtain ⟨t, ht, hpt⟩ := List.mem_map.mp hmem
    obtain ⟨htdb, hcand⟩ := List.mem_filter.mp ht
    subst hconv
    refine ⟨of_decide_eq_true hpos, t, htdb, hcand, ?_, ?_⟩
    · show p.2.id = t.id
      rw [← hpt]
    · show p.1 = ticketScore (descKeywords d) cat t
      rw [← hpt]

/-- C5 witness: the TICKET-456 result of the example query is a member of
the returned tickets, so the membership conjunct applies to it concretely. -/
theorem C5_search_similar_tickets_correct_witness :
    0 < 10
      ∧ ∃ t ∈ TICKET_DATABASE,
          ticketCandidate none t = true
            ∧ ("TICKET-456" : String) = t.id
            ∧ 10 = ticketScore
                (descKeywords "webhook endpoint not receiving events") none t :=
  C5_search_similar_tickets_correct.2.2.2.2.1 TICKET_DATABASE
    "webhook endpoint not receiving events" none 3
    { ticket_id := "TICKET-456", title := "Webhook events not received",
      category := "integration",
      description := "Customer\x27s webhook endpoint stopped receiving events after API v2 update",
      resolution := "Webhook secret was regenerated during API update. Customer needed to update their verification code with new secret.",
      relevance_score := 10 }
    (by decide)

/-- C6 counterexample: `ticket_id` is NOT set at most once. Starting from a
state whose `ticket_id` is already `some "TICKET-1111"`, a subsequent
`set_escalation_requested` with a different id overwrites it, and a second
`create_ticket` call in the same conversation likewise overwrites the stored
id with the new ticket's id. -/
theorem C6_ticket_id_overwritten_counterexample :
    ((set_escalation_requested (get_initial_state "" "" "T0")
        (some "TICKET-1111") "T1").ticket_id = some "TICKET-1111")
    ∧ ((set_escalation_requested
          (set_escalation_requested (get_initial_state "" "" "T0")
            (some "TICKET-1111") "T1")
          (some "TICKET-2222") "T2").ticket_id = some "TICKET-2222")
    ∧ ((create_ticket TICKET_DATABASE (get_initial_state "" "" "T0") [1111, 2222]
          "Webhook failing" "integration" "high" "details" none none "T1").bind
        (fun x => (create_ticket x.2.1 x.2.2.1 x.2.2.2 "Webhook failing again"
            "integration" "high" "details" none none "T2").map
          (fun y => (x.2.2.1.ticket_id, y.2.2.1.ticket_id)))
        = some (some "TICKET-1111", some "TICKET-2222"))
    ∧ ("TICKET-2222" : String) ≠ "TICKET-1111" := by
  exact ⟨rfl, rfl, rfl, by decide⟩

/-- C6 amended: `ticket_id` is last-wins, not first-wins: among the state
operations only `set_escalation_requested` with a truthy ticket id writes
the field (overwriting any previous value), every other operation preserves
it; `create_ticket` always records the freshly generated id in the session
state, so a later `create_ticket` replaces the stored `ticket_id`. -/
theorem C6_ticket_id_last_wins :
    (∀ (s : SessionState) (op : StateOp),
        (applyOp s op).ticket_id
          = match opTicketWrite op with
            | some tid => some tid
            | none => s.ticket_id)
    ∧ (∀ (db : List Ticket) (s : SessionState) (rng : List Nat)
        (su c p d : String) (as : Option (List String)) (u : Option String)
        (now : String),
        (create_ticket db s rng su c p d as u now).map (fun x => x.2.2.1.ticket_id)
          = (create_ticket db s rng su c p d as u now).map
              (fun x => some x.1.ticket_id)) := by
  constructor
  · intro s op
    cases op with
    | opSetEscalationRequested tid now =>
      simp only [applyOp, set_escalation_requested, opTicketWrite]
      by_cases h : optStrTruthy tid = true
      · rw [if_pos h, if_pos h]
        cases tid with
        | none => simp [optStrTruthy] at h
        | some t => rfl
      · rw [if_neg h, if_neg h]
    | opSetIssueContext c p conf d e k now => rfl
    | opAddAttemptedSolution sol ag r fb now => rfl
    | opUpdateSolutionResult r fb now =>
      simp only [applyOp, update_solution_result, opTicketWrite]
      split <;> rfl
    | opSetConversationStatus st now => rfl
    | opSetCurrentAgent ag now => rfl
    | opIncrementTurnCount => rfl
    | opIncrementClarifyingQuestions => rfl
    | opSetUserInfo un up uid rt now =>
      simp only [applyOp, set_user_info, opTicketWrite]
      repeat' split
      all_goals rfl
    | opDetectFrustration msg => rfl
    | opMarkTriageComplete => rfl
    | opMarkSpecialistEngaged => rfl
    | opRecordKbSearch q now => rfl
    | opRecordSimilarTickets ids => rfl
    | opMarkSystemStatusChecked => rfl
  · intro db s rng su c p d as u now
    unfold create_ticket
    cases hg : genUniqueTicketId db rng with
    | none => rfl
    | some pr =>
      obtain ⟨tid, rng2⟩ := pr
      have htid : tid ≠ "" := genUniqueTicketId_ne_empty db rng tid rng2 hg
      have htr : optStrTruthy (some tid) = true := by
        simp [optStrTruthy, htid]
      simp only [Option.map_some]
      refine congrArg some ?_
      show (set_escalation_requested s (some tid) now).ticket_id = some tid
      simp only [set_escalation_requested, htr, if_true]

/-- C7 counterexample: not every state mutation stamps `last_activity`.
`detect_frustration` changes `user_frustration_level`, `increment_turn_count`
changes `turn_count`, and `record_similar_tickets` changes
`last_similar_tickets`, yet each leaves `last_activity` at its old value
`"T0"` (none of these helpers even reads the clock). -/
theorem C7_last_activity_counterexample :
    ((get_initial_state "" "" "T0").last_activity = "T0")
    ∧ ((get_initial_state "" "" "T0").user_frustration_level = "normal")
    ∧ ((detect_frustration (get_initial_state "" "" "T0")
          "This is terrible").1.user_frustration_level = "angry")
    ∧ ((detect_frustration (get_initial_state "" "" "T0")
          "This is terrible").1.last_activity = "T0")
    ∧ ((increment_turn_count (get_initial_state "" "" "T0")).turn_count = 1)
    ∧ ((increment_turn_count (get_initial_state "" "" "T0")).last_activity = "T0")
    ∧ ((record_similar_tickets (get_initial_state "" "" "T0")
          ["TICKET-456"]).last_similar_tickets = ["TICKET-456"])
    ∧ ((record_similar_tickets (get_initial_state "" "" "T0")
          ["TICKET-456"]).last_activity = "T0") :=
  ⟨rfl, rfl, rfl, rfl, rfl, rfl, rfl, rfl⟩

/-- C7 amended: `last_activity` is stamped exactly by `set_issue_context`,
`add_attempted_solution`, `update_solution_result` (on a nonempty attempts
list), `set_conversation_status`, `set_current_agent`,
`set_escalation_requested`, `set_user_info` and `record_kb_search`
(`opStamp`); `detect_frustration`, `increment_turn_count`,
`increment_clarifying_questions`, `record_similar_tickets`,
`mark_triage_complete`, `mark_specialist_engaged` and
`mark_system_status_checked` mutate the state without touching it. -/
theorem C7_last_activity_characterization :
    ∀ (s : SessionState) (op : StateOp),
      (applyOp s op).last_activity = (opStamp s op).getD s.last_activity := by
  intro s op
  cases op with
  | opSetIssueContext c p conf d e k now => rfl
  | opAddAttemptedSolution sol ag r fb now => rfl
  | opUpdateSolutionResult r fb now =>
    simp only [applyOp, update_solution_result, opStamp]
    cases hs : s.attempted_solutions with
    | nil => simp
    | cons x xs => simp
  | opSetConversationStatus st now => rfl
  | opSetCurrentAgent ag now => rfl
  | opIncrementTurnCount => rfl
  | opIncrementClarifyingQuestions => rfl
  | opSetEscalationRequested tid now =>
    simp only [applyOp, set_escalation_requested, opStamp]
    rfl
  | opSetUserInfo un up uid rt now =>
    simp only [applyOp, set_user_info, opStamp]
    rfl
  | opDetectFrustration msg => rfl
  | opMarkTriageComplete => rfl
  | opMarkSpecialistEngaged => rfl
  | opRecordKbSearch q now => rfl
  | opRecordSimilarTickets ids => rfl
  | opMarkSystemStatusChecked => rfl

/-- C8 counterexample: on a zero-match query `search_knowledge_base` does
return `status = "success"` with an empty list, but its result dict carries
NO explanatory `message` key at all (modelled as `message = none`), contrary
to the claim that both searches return a message. -/
theorem C8_kb_no_message_counterexample :
    (search_knowledge_base "zzzz" 3).status = "success"
    ∧ (search_knowledge_base "zzzz" 3).articles = []
    ∧ (search_knowledge_base "zzzz" 3).message = none :=
  ⟨rfl, rfl, rfl⟩

/-- C8 amended: zero-match searches are not errors: `search_knowledge_base`
always returns `status = "success"` and never a `message` key;
`search_similar_tickets` always returns `status = "success"` and, when the
result list is empty, the explanatory no-match message; only
`get_faq_answer` reports a no-match as `status = "not_found"` with a
message and no answer (its status is always `"found"` or `"not_found"`). -/
theorem C8_no_match_handling :
    (∀ (query : String) (max_results : Nat),
      (search_knowledge_base query max_results).status = "success"
        ∧ (search_knowledge_base query max_results).message = none)
    ∧ (∀ (db : List Ticket) (d : String) (cat : Option String) (limit : Nat),
        (search_similar_tickets db d cat limit).status = "success"
          ∧ ((search_similar_tickets db d cat limit).similar_tickets = [] →
              (search_similar_tickets db d cat limit).message
                = "No similar resolved tickets found. This may be a new issue type."))
    ∧ (∀ question : String,
        (get_faq_answer question).status = "not_found" →
          (get_faq_answer question).message
              = some "No FAQ entry found for this question. Try searching the knowledge base for more detailed articles."
            ∧ (get_faq_answer question).answer = none)
    ∧ (∀ question : String,
        (get_faq_answer question).status = "found"
          ∨ (get_faq_answer question).status = "not_found") := by
  refine ⟨fun query max_results => ⟨rfl, rfl⟩, ?_, ?_, ?_⟩
  · intro db d cat limit
    refine ⟨rfl, ?_⟩
    intro hempty
    simp only [search_similar_tickets] at hempty ⊢
    rw [hempty]
    rfl
  · intro question
    simp only [get_faq_answer]
    split
    · intro h
      have hfs : ("found" : String) = "not_found" := h
      exact absurd hfs (by decide)
    · split
      · split
        · intro h
          have hfs : ("found" : String) = "not_found" := h
          exact absurd hfs (by decide)
        · intro _; exact ⟨rfl, rfl⟩
      · intro _; exact ⟨rfl, rfl⟩
  · intro question
    simp only [get_faq_answer]
    split
    · exact Or.inl rfl
    · split
      · split
        · exact Or.inl rfl
        · exact Or.inr rfl
      · exact Or.inr rfl

/-- C8 witness: the no-match branches at concrete zero-match inputs. -/
theorem C8_no_match_handling_witness :
    (search_similar_tickets TICKET_DATABASE "qqqq" none 3).message
        = "No similar resolved tickets found. This may be a new issue type."
    ∧ (get_faq_answer "xyzzy qwop").message
        = some "No FAQ entry found for this question. Try searching the knowledge base for more detailed articles."
    ∧ (get_faq_answer "xyzzy qwop").answer = none :=
  ⟨(C8_no_match_handling.2.1 TICKET_DATABASE "qqqq" none 3).2 (by rfl),
   (C8_no_match_handling.2.2.1 "xyzzy qwop" (by rfl)).1,
   (C8_no_match_handling.2.2.1 "xyzzy qwop" (by rfl)).2⟩

/-- A successful `create_ticket` call returns an id absent from the prior
database, stores the new ticket (under that id) in the returned database,
and keeps every prior ticket. -/
theorem create_ticket_some_spec
    (db : List Ticket) (s : SessionState) (rng : List Nat)
    (su c p d : String) (as : Option (List String)) (u : Option String)
    (now : String) (r : CreateTicketResult) (db' : List Ticket)
    (s' : SessionState) (rng' : List Nat)
    (h : create_ticket db s rng su c p d as u now = some (r, db', s', rng')) :
    db.any (fun t => t.id == r.ticket_id) = false
    ∧ db'.any (fun t => t.id == r.ticket_id) = true
    ∧ ∀ t ∈ db, t ∈ db' := by
  unfold create_ticket at h
  cases hg : genUniqueTicketId db rng with
  | none => rw [hg] at h; cases h
  | some pr =>
    obtain ⟨tid, rngr⟩ := pr
    rw [hg] at h
    simp only [Option.some.injEq, Prod.mk.injEq] at h
    obtain ⟨hr, hdb, hs, hrng⟩ := h
    have hfresh := genUniqueTicketId_fresh db rng tid rngr hg
    have hrt : r.ticket_id = tid := by rw [← hr]
    subst hdb
    refine ⟨?_, ?_, ?_⟩
    · rw [hrt]; exact hfresh
    · rw [hrt, List.any_append]
      simp
    · intro t ht
      exact List.mem_append_left _ ht

/-- A false `any (· == tid)` gives a true `all (· != tid)`. -/
theorem all_bne_of_any_beq_false (l : List Ticket) (tid : String)
    (h : l.any (fun t => t.id == tid) = false) :
    l.all (fun t => t.id != tid) = true := by
  rw [List.all_eq_true]
  intro t ht
  rw [List.any_eq_false] at h
  simpa using h t ht

/-- C9: two sequential successful `create_ticket` calls return distinct
ticket ids; each returned id is absent from the corpus at the moment of its
call (the generator re-rolls past collisions), and each created ticket is in
the corpus its call returns. -/
theorem C9_create_ticket_unique
    (db : List Ticket) (s : SessionState) (rng : List Nat)
    (su1 c1 p1 d1 su2 c2 p2 d2 : String)
    (as1 as2 : Option (List String)) (u1 u2 : Option String) (n1 n2 : String)
    (r1 r2 : CreateTicketResult) (db1 db2 : List Ticket) (s1 s2 : SessionState)
    (rng1 rng2 : List Nat)
    (h1 : create_ticket db s rng su1 c1 p1 d1 as1 u1 n1 = some (r1, db1, s1, rng1))
    (h2 : create_ticket db1 s1 rng1 su2 c2 p2 d2 as2 u2 n2 = some (r2, db2, s2, rng2)) :
    r1.ticket_id ≠ r2.ticket_id
    ∧ db.all (fun t => t.id != r1.ticket_id) = true
    ∧ db1.all (fun t => t.id != r2.ticket_id) = true
    ∧ db1.any (fun t => t.id == r1.ticket_id) = true
    ∧ db2.any (fun t => t.id == r2.ticket_id) = true := by
  have ha := create_ticket_some_spec db s rng su1 c1 p1 d1 as1 u1 n1 r1 db1 s1 rng1 h1
  have hb := create_ticket_some_spec db1 s1 rng1 su2 c2 p2 d2 as2 u2 n2 r2 db2 s2 rng2 h2
  have hneq : r1.ticket_id ≠ r2.ticket_id := by
    intro he
    have hin := ha.2.1
    rw [he, hb.1] at hin
    cases hin
  exact ⟨hneq, all_bne_of_any_beq_false db r1.ticket_id ha.1,
    all_bne_of_any_beq_false db1 r2.ticket_id hb.1, ha.2.1, hb.2.1⟩

/-- C9 witness: from the stock corpus with the draw stream
`[789, 1234, 1234, 5678]` the first call re-rolls past the existing
TICKET-789 and returns TICKET-1234; the second call re-rolls past the
now-stored TICKET-1234 and returns TICKET-5678 — distinct and fresh. -/
theorem C9_create_ticket_unique_witness :
    ("TICKET-1234" : String) ≠ "TICKET-5678"
    ∧ TICKET_DATABASE.all (fun t => t.id != "TICKET-1234") = true := by
  have h := C9_create_ticket_unique TICKET_DATABASE (get_initial_state "" "" "T0")
    [789, 1234, 1234, 5678] "Webhook down" "integration" "high" "details"
    "Webhook still down" "integration" "high" "details" none none none none
    "T1" "T2" _ _ _ _ _ _ _ _ rfl rfl
  exact ⟨h.1, h.2.1⟩

/-- C10: `get_user_context` with an omitted or empty `user_id` resolves to
the fixed `"demo_user"` record — independently of anything stored in the
session state — returning Jack Sparrow's `user` and `support_context`
payloads and storing that user's info in state; a supplied id absent from
`MOCK_USERS` yields `status = "error"` with an error message and leaves the
session state unchanged. -/
theorem C10_get_user_context_default :
    (∀ (s : SessionState) (now : String),
      (get_user_context s none now).2
        = ⟨"success",
            some ⟨"Jack Sparrow", "demo@example.com", "Standard", "active"⟩,
            some ⟨["TICKET-789"], 1⟩, none, none⟩)
    ∧ (∀ (s : SessionState) (now : String),
        get_user_context s (some "") now = get_user_context s none now)
    ∧ (∀ (s : SessionState) (now : String),
        (get_user_context s none now).1
          = set_user_info s (some "Jack Sparrow") (some "Standard")
              (some "demo_user") (some ["TICKET-789"]) now)
    ∧ (∀ (s : SessionState) (uid now : String),
        uid ≠ "" → MOCK_USERS.all (fun p => p.1 != uid) = true →
          (get_user_context s (some uid) now).2.status = "error"
            ∧ (get_user_context s (some uid) now).2.error_message
                = some ("User \x27" ++ uid ++ "\x27 not found in the system")
            ∧ (get_user_context s (some uid) now).1 = s) := by
  refine ⟨fun s now => rfl, fun s now => rfl, fun s now => rfl, ?_⟩
  intro s uid now hne hall
  have hlid : strOrDefault (some uid) DEFAULT_USER_ID = uid := by
    simp [strOrDefault, hne]
  have hfind : MOCK_USERS.find? (fun p => p.1 == uid) = none := by
    rw [List.find?_eq_none]
    intro p hp
    have h2 := List.all_eq_true.mp hall p hp
    simpa using h2
  simp [get_user_context, hlid, hfind]

/-- C10 witness: the unknown id `"user_999"` errors and leaves the state
unchanged. -/
theorem C10_get_user_context_default_witness :
    (get_user_context (get_initial_state "" "" "T0") (some "user_999") "T1").2.status
        = "error"
    ∧ (get_user_context (get_initial_state "" "" "T0") (some "user_999") "T1").2.error_message
        = some "User \x27user_999\x27 not found in the system"
    ∧ (get_user_context (get_initial_state "" "" "T0") (some "user_999") "T1").1
        = get_initial_state "" "" "T0" :=
  C10_get_user_context_default.2.2.2 (get_initial_state "" "" "T0") "user_999" "T1"
    (by decide) (by decide)

end CsAgent
